import Mathlib

/-!
Verification of the prompt-generation chatbot example
(`examples/chatbots/information-gather-prompting.ipynb`).

The notebook builds a two-mode dialogue agent on a message graph:
an "info" node gathers requirements, a "prompt" node generates the
prompt template, and a router (`get_state`) inspects the message list
to pick the next node.  We embed the message data model, the tool-call
detector `_is_tool_call`, the router `get_state`, the prompt-message
builder `get_prompt_messages`, and the graph wiring
(`set_entry_point("info")`, conditional edges via `get_state`) as
executable Lean definitions, and prove the behavioural properties
stated about them.

External LLM calls are modelled as oracle functions `List Turn → Turn`
(or `→ Except GenError Turn` for the fallible variant).
-/

namespace PromptGen

/-- Message role: `HumanMessage`, `AIMessage` (assistant) or `SystemMessage`. -/
inductive Role where
  | human
  | assistant
  | system
  deriving DecidableEq, Repr

/-- One message of the conversation.  `toolCallArgs` models
`additional_kwargs["tool_calls"][0]["function"]["arguments"]`:
`some s` when the key `"tool_calls"` is present in `additional_kwargs`
(with `s` the first tool call's function arguments), `none` when absent.
Any role may carry the field, exactly as any message object may carry
`additional_kwargs` entries. -/
structure Turn where
  role : Role
  content : String
  toolCallArgs : Option String
  deriving DecidableEq, Repr

/-- A `HumanMessage(content=text)`: no `tool_calls` entry. -/
def HumanTurn (text : String) : Turn :=
  ⟨Role.human, text, none⟩

/-- A `SystemMessage(content=text)`: no `tool_calls` entry. -/
def SystemTurn (text : String) : Turn :=
  ⟨Role.system, text, none⟩

/-- Source `_is_tool_call(msg)`:
`hasattr(msg, "additional_kwargs") and "tool_calls" in msg.additional_kwargs`.
Every message carries `additional_kwargs`, so on messages this is exactly
presence of the `"tool_calls"` key.  Note: the role is not inspected. -/
def _is_tool_call (m : Turn) : Bool :=
  m.toolCallArgs.isSome

/-- The spec's Signal Detector predicate (§4.2): role `assistant`
AND structured payload present. -/
def isModeSwitch (t : Turn) : Bool :=
  t.role == Role.assistant && t.toolCallArgs.isSome

/-- The `END` sentinel of the graph library. -/
def END : String := "__end__"

/-- Failure of the router; the source raises `IndexError` on
`messages[-1]` when the list is empty, named `EmptyThread` in the
error taxonomy. -/
inductive RouterError where
  | EmptyThread
  deriving DecidableEq, Repr

/-- Source `get_state(messages)`:
```
if _is_tool_call(messages[-1]): return "prompt"
elif not isinstance(messages[-1], HumanMessage): return END
for m in messages:
    if _is_tool_call(m): return "prompt"
return "info"
```
-/
def get_state (messages : List Turn) : Except RouterError String :=
  match messages.getLast? with
  | none => .error RouterError.EmptyThread
  | some last =>
    if _is_tool_call last then .ok "prompt"
    else if last.role ≠ Role.human then .ok END
    else if messages.any (fun m => _is_tool_call m) then .ok "prompt"
    else .ok "info"

/-- The spec's modes (§3): `Gathering` runs the "info" node,
`Generating` the "prompt" node, `AwaitingInput` is the terminal
pseudo-state `END`. -/
inductive Mode where
  | Gathering
  | Generating
  | AwaitingInput
  deriving DecidableEq, Repr

/-- Node name implementing each spec mode. -/
def nodeOfMode : Mode → String
  | Mode.Gathering => "info"
  | Mode.Generating => "prompt"
  | Mode.AwaitingInput => END

/-- The spec's Router rules (§4.3), stated with the spec's own
mode-switch predicate, for comparison with `get_state`:
1. latest Turn a mode-switch → `Generating`;
2. else latest role not human → `AwaitingInput`;
3. else any Turn a mode-switch → `Generating`, otherwise `Gathering`. -/
def specNextMode (messages : List Turn) : Option Mode :=
  match messages.getLast? with
  | none => none
  | some last =>
    if isModeSwitch last then some Mode.Generating
    else if last.role ≠ Role.human then some Mode.AwaitingInput
    else if messages.any (fun t => isModeSwitch t) then some Mode.Generating
    else some Mode.Gathering

/-- The gathering system instruction (source cell defining `template`). -/
def template : String :=
"Your job is to get information from a user about what type of prompt template they want to create.

You should get the following information from them:

- What the objective of the prompt is
- What variables will be passed into the prompt template
- Any constraints for what the output should NOT do
- Any requirements that the output MUST adhere to

If you are not able to discerne this info, ask them to clarify! Do not attempt to wildly guess.

After you are able to discerne all the information, call the relevant tool"

/-- Source `get_messages_info(messages)`: `[SystemMessage(content=template)] + messages`. -/
def get_messages_info (messages : List Turn) : List Turn :=
  SystemTurn template :: messages

/-- The generating system instruction is
`"Based on the following requirements, write a good prompt template:\n\n{reqs}"`;
Python `prompt_system.format(reqs=tool_call)` substitutes `str(tool_call)`
for the trailing placeholder: the arguments string when a tool call was
seen, the text `"None"` when `tool_call` is `None`. -/
def formatReqs (tc : Option String) : String :=
  "Based on the following requirements, write a good prompt template:\n\n" ++
    (match tc with
     | some s => s
     | none => "None")

/-- The loop body of `get_prompt_messages`: walks the messages carrying
the mutable `tool_call` variable; a tool-call message overwrites it
(and is not kept), any later non-tool-call message is kept.
Returns the final `tool_call` value and the kept messages in order. -/
def gpmLoop : List Turn → Option String → Option String × List Turn
  | [], tc => (tc, [])
  | m :: rest, tc =>
    if _is_tool_call m then gpmLoop rest m.toolCallArgs
    else if tc.isSome then
      let r := gpmLoop rest tc
      (r.1, m :: r.2)
    else gpmLoop rest tc

/-- Source `get_prompt_messages(messages)`:
```
tool_call = None
other_msgs = []
for m in messages:
    if _is_tool_call(m):
        tool_call = m.additional_kwargs["tool_calls"][0]["function"]["arguments"]
    elif tool_call is not None:
        other_msgs.append(m)
return [SystemMessage(content=prompt_system.format(reqs=tool_call))] + other_msgs
```
-/
def get_prompt_messages (messages : List Turn) : List Turn :=
  let r := gpmLoop messages none
  SystemTurn (formatReqs r.1) :: r.2

/-- Arguments of the last tool-call message of the list, if any
(the value `tool_call` holds when the loop of `get_prompt_messages`
finishes). -/
def lastToolCallArgs : List Turn → Option String
  | [] => none
  | m :: rest =>
    match lastToolCallArgs rest with
    | some a => some a
    | none => if _is_tool_call m then m.toolCallArgs else none

/-- The messages strictly after the first tool-call message, with all
tool-call messages removed (the `other_msgs` the loop accumulates). -/
def tailAfterFirstSwitch : List Turn → List Turn
  | [] => []
  | m :: rest =>
    if _is_tool_call m then rest.filter (fun x => !_is_tool_call x)
    else tailAfterFirstSwitch rest

/-- Output of the node the graph runs.  The "info" node is the chain
`get_messages_info | llm_with_tool`, the "prompt" node is
`get_prompt_messages | llm`; the two LLM calls are the oracles
`ig` and `pg`. -/
def runNode (ig pg : List Turn → Turn) (node : String) (messages : List Turn) : Turn :=
  if node = "info" then ig (get_messages_info messages)
  else pg (get_prompt_messages messages)

/-- Execution of the compiled graph: starting at `node`, repeatedly run
the current node on the message list, append its output, and follow the
conditional edge `get_state` (both "info" and "prompt" route through it;
the node map is the identity on `{"info", "prompt", END}`).  Returns the
final message list, the outputs produced this invocation, and the list of
node names invoked, or `none` on fuel exhaustion (modelling the
library's recursion limit) or on a router error. -/
def runGraph (ig pg : List Turn → Turn) :
    Nat → String → List Turn → List Turn → List String →
    Option (List Turn × List Turn × List String)
  | 0, _, _, _, _ => none
  | fuel + 1, node, messages, outs, trace =>
    if node = END then some (messages, outs, trace)
    else
      let r := runNode ig pg node messages
      match get_state (messages ++ [r]) with
      | .error _ => none
      | .ok next =>
        runGraph ig pg fuel next (messages ++ [r]) (outs ++ [r]) (trace ++ [node])

/-- One `graph.stream([HumanMessage(content=text)], config)` call:
the checkpointed history is extended with the human message and the
graph starts at its entry point — `workflow.set_entry_point("info")`
wires START unconditionally to the "info" node.  Fuel 3 covers the
run: two node invocations plus the END step. -/
def submit (ig pg : List Turn → Turn) (history : List Turn) (text : String) :
    Option (List Turn × List Turn × List String) :=
  runGraph ig pg 3 "info" (history ++ [HumanTurn text]) [] []

/-- External generator failure (§4.4, §6). -/
inductive GenError where
  | GenerationFailed
  deriving DecidableEq, Repr

/-- Modelled from the spec: the Orchestrator turn loop of §4.5 with its
Checkpoint Store persistence and fallible external generators (§4.4, §6);
the orchestration/checkpoint runtime lives in the langgraph library, not
in the example source, so it is modelled from the spec's words: "loop:
ask Router for next mode against current Thread; if `AwaitingInput`,
persist and return accumulated output Turns; else invoke the
corresponding Mode Handler, append its result, persist the updated
Thread, continue loop", and on `GenerationFailed` "the cycle aborts" with
no partial Turn appended.  Arguments after the fuel: the currently
persisted thread, the in-memory thread, the accumulated outputs.
Result: the persisted thread after the call paired with the outputs or
the error; `none` models fuel exhaustion, unreachable under the spec's
two-invocation bound. -/
def submitSpecLoop (ig pg : List Turn → Except GenError Turn) :
    Nat → List Turn → List Turn → List Turn →
    Option (List Turn × Except GenError (List Turn))
  | 0, _, _, _ => none
  | fuel + 1, persisted, messages, outs =>
    match specNextMode messages with
    | none => none
    | some Mode.AwaitingInput => some (messages, .ok outs)
    | some Mode.Gathering =>
      match ig messages with
      | .error e => some (persisted, .error e)
      | .ok t => submitSpecLoop ig pg fuel (messages ++ [t]) (messages ++ [t]) (outs ++ [t])
    | some Mode.Generating =>
      match pg messages with
      | .error e => some (persisted, .error e)
      | .ok t => submitSpecLoop ig pg fuel (messages ++ [t]) (messages ++ [t]) (outs ++ [t])

/-- Modelled from the spec: `submit(threadId, humanInput)` of §4.5 —
load the stored thread, append a `human` Turn, run the cycle loop. -/
def submitSpec (ig pg : List Turn → Except GenError Turn) (stored : List Turn) (text : String) :
    Option (List Turn × Except GenError (List Turn)) :=
  submitSpecLoop ig pg 3 stored (stored ++ [HumanTurn text]) []

/-- Expected result of one `submit` call, written out from the graph
wiring: the "info" node always runs first (fixed entry point); when its
output carries a tool call the conditional edge chains into the "prompt"
node, otherwise the run ends. -/
def expectedSubmit (ig pg : List Turn → Turn) (history : List Turn) (text : String) :
    List Turn × List Turn × List String :=
  let msgs0 := history ++ [HumanTurn text]
  let r1 := ig (get_messages_info msgs0)
  if _is_tool_call r1 then
    let r2 := pg (get_prompt_messages (msgs0 ++ [r1]))
    (msgs0 ++ [r1, r2], [r1, r2], ["info", "prompt"])
  else
    (msgs0 ++ [r1], [r1], ["info"])

/-- Concrete gathering oracle used for witnesses: a plain clarifying
question, no tool call. -/
def c6InfoOracle : List Turn → Turn :=
  fun _ => ⟨Role.assistant, "anything else?", none⟩

/-- Concrete generating oracle used for witnesses: a plain text reply. -/
def c6PromptOracle : List Turn → Turn :=
  fun _ => ⟨Role.assistant, "here is a template", none⟩

/-! ## Helper lemmas -/

theorem exists_getLast?_of_ne_nil (l : List Turn) (h : l ≠ []) :
    ∃ a, l.getLast? = some a :=
  Option.isSome_iff_exists.mp (List.getLast?_isSome.mpr h)

theorem tool_call_of_isModeSwitch {t : Turn} (h : isModeSwitch t = true) :
    _is_tool_call t = true := by
  unfold isModeSwitch at h
  simp only [Bool.and_eq_true] at h
  exact h.2

theorem isModeSwitch_eq_tool_call {t : Turn}
    (h : t.toolCallArgs.isSome = true → t.role = Role.assistant) :
    isModeSwitch t = _is_tool_call t := by
  unfold isModeSwitch _is_tool_call
  cases hp : t.toolCallArgs with
  | none => simp [hp]
  | some a =>
    have hr : t.role = Role.assistant := h (by rw [hp]; rfl)
    simp [hp, hr]

theorem gpmLoop_some (messages : List Turn) (s : String) :
    gpmLoop messages (some s) =
      (some ((lastToolCallArgs messages).getD s),
       messages.filter (fun m => !_is_tool_call m)) := by
  induction messages generalizing s with
  | nil => simp [gpmLoop, lastToolCallArgs]
  | cons m rest ih =>
    by_cases hm : _is_tool_call m = true
    · obtain ⟨a, ha⟩ := Option.isSome_iff_exists.mp hm
      rw [gpmLoop, if_pos hm, ha, ih a]
      rw [lastToolCallArgs]
      cases hl : lastToolCallArgs rest with
      | none => simp [List.filter, hm, ha, hl]
      | some b => simp [List.filter, hm, hl]
    · rw [gpmLoop, if_neg hm]
      simp only [Option.isSome_some, if_pos]
      rw [ih s, lastToolCallArgs]
      cases hl : lastToolCallArgs rest with
      | none => simp [List.filter, hm, hl]
      | some b => simp [List.filter, hm, hl]

theorem gpmLoop_none_of_any (messages : List Turn)
    (h : messages.any (fun m => _is_tool_call m) = true) :
    gpmLoop messages none =
      (lastToolCallArgs messages, tailAfterFirstSwitch messages) := by
  induction messages with
  | nil => simp at h
  | cons m rest ih =>
    by_cases hm : _is_tool_call m = true
    · obtain ⟨a, ha⟩ := Option.isSome_iff_exists.mp hm
      rw [gpmLoop, if_pos hm, ha, gpmLoop_some]
      rw [lastToolCallArgs, tailAfterFirstSwitch, if_pos hm]
      cases hl : lastToolCallArgs rest with
      | none => simp [hm, ha, hl]
      | some b => simp [hm, hl]
    · have hrest : rest.any (fun m => _is_tool_call m) = true := by
        rcases List.any_eq_true.mp h with ⟨t, ht, hsw⟩
        rcases List.mem_cons.mp ht with rfl | ht'
        · exact absurd hsw hm
        · exact List.any_eq_true.mpr ⟨t, ht', hsw⟩
      rw [gpmLoop, if_neg hm]
      simp only [Option.isSome_none, Bool.false_eq_true, if_neg, ite_false]
      rw [ih hrest, lastToolCallArgs, tailAfterFirstSwitch]
      cases hl : lastToolCallArgs rest with
      | none => simp [hm, hl]
      | some b => simp [hm, hl]

theorem gpmLoop_none_of_all_plain (messages : List Turn)
    (h : messages.all (fun m => !_is_tool_call m) = true) :
    gpmLoop messages none = (none, []) := by
  induction messages with
  | nil => rfl
  | cons m rest ih =>
    have hm : (!_is_tool_call m) = true := (List.all_eq_true.mp h) m (List.mem_cons_self m rest)
    have hrest : rest.all (fun m => !_is_tool_call m) = true :=
      List.all_eq_true.mpr fun t ht => (List.all_eq_true.mp h) t (List.mem_cons_of_mem m ht)
    have hm' : ¬_is_tool_call m = true := by simpa using hm
    rw [gpmLoop, if_neg hm']
    simp only [Option.isSome_none, Bool.false_eq_true, if_neg, ite_false]
    exact ih hrest

theorem gpmLoop_snd_all_plain (messages : List Turn) (tc : Option String) :
    (gpmLoop messages tc).2.all (fun m => !_is_tool_call m) = true := by
  induction messages generalizing tc with
  | nil => rfl
  | cons m rest ih =>
    by_cases hm : _is_tool_call m = true
    · rw [gpmLoop, if_pos hm]; exact ih _
    · rw [gpmLoop, if_neg hm]
      by_cases htc : tc.isSome = true
      · simp only [htc, if_pos]
        simp only [List.all_cons, Bool.and_eq_true]
        exact ⟨by simpa using hm, ih tc⟩
      · simp only [htc, Bool.false_eq_true, if_neg, ite_false]
        exact ih tc

/-! ## Claims about the router -/

/-- C8: the Router is total on every non-empty message list (its error
branch is unreachable there), and on the empty list it fails with
`EmptyThread` instead of returning a mode. -/
theorem router_total_on_nonempty :
    get_state ([] : List Turn) = .error RouterError.EmptyThread ∧
    ∀ messages : List Turn, messages ≠ [] → ∃ s, get_state messages = .ok s := by
  refine ⟨rfl, ?_⟩
  intro messages h
  obtain ⟨last, hl⟩ := exists_getLast?_of_ne_nil messages h
  unfold get_state
  rw [hl]
  dsimp only
  split_ifs <;> exact ⟨_, rfl⟩

/-- Witness for C8 at a concrete non-empty input. -/
theorem router_total_on_nonempty_witness :
    ∃ s, get_state [HumanTurn "hi!"] = .ok s :=
  router_total_on_nonempty.2 [HumanTurn "hi!"] (by decide)

/-- C2: one-way latch — as soon as the message list contains a
mode-switch Turn (assistant with payload), every router evaluation whose
latest Turn is human yields `"prompt"` (the Generating node) and never
`"info"` (the Gathering node). -/
theorem router_one_way_latch (messages : List Turn) (last : Turn)
    (hl : messages.getLast? = some last) (hh : last.role = Role.human)
    (hs : ∃ t, t ∈ messages ∧ isModeSwitch t = true) :
    get_state messages = .ok "prompt" ∧ get_state messages ≠ .ok "info" := by
  have hp : get_state messages = .ok "prompt" := by
    unfold get_state
    rw [hl]
    by_cases h1 : _is_tool_call last = true
    · simp [h1]
    · have hany : messages.any (fun m => _is_tool_call m) = true := by
        rcases hs with ⟨t, ht, hsw⟩
        exact List.any_eq_true.mpr ⟨t, ht, tool_call_of_isModeSwitch hsw⟩
      simp [h1, hh, hany]
  exact ⟨hp, by rw [hp]; simp⟩

/-- Witness for C2: a latched thread whose latest Turn is human. -/
theorem router_one_way_latch_witness :
    get_state [⟨Role.assistant, "ready", some "ARGS"⟩, HumanTurn "refine it"] = .ok "prompt" ∧
    get_state [⟨Role.assistant, "ready", some "ARGS"⟩, HumanTurn "refine it"] ≠ .ok "info" :=
  router_one_way_latch _ (HumanTurn "refine it") (by decide) rfl
    ⟨⟨Role.assistant, "ready", some "ARGS"⟩, by simp, by decide⟩

/-- C4 counterexample: the source detector `_is_tool_call` does not
inspect the role — a human Turn carrying a `tool_calls` entry makes it
return `true`, while the claim requires `false` for every human Turn. -/
theorem is_tool_call_ignores_role_cx :
    _is_tool_call (⟨Role.human, "y", some "ARGS"⟩ : Turn) = true ∧
    (⟨Role.human, "y", some "ARGS"⟩ : Turn).role ≠ Role.assistant := by
  exact ⟨rfl, by decide⟩

/-- C4 amended: `_is_tool_call` returns true iff a tool-call payload is
present, regardless of role; on Turns satisfying the data-model
invariant (payload only on assistant Turns) it coincides with the
spec's mode-switch predicate. -/
theorem is_tool_call_payload_only (t : Turn)
    (hinv : t.toolCallArgs.isSome = true → t.role = Role.assistant) :
    _is_tool_call t = t.toolCallArgs.isSome ∧ _is_tool_call t = isModeSwitch t :=
  ⟨rfl, (isModeSwitch_eq_tool_call hinv).symm⟩

/-- Witness for C4 (amended) at a concrete assistant Turn with payload. -/
theorem is_tool_call_payload_only_witness :
    _is_tool_call (⟨Role.assistant, "ok", some "P"⟩ : Turn) =
      (⟨Role.assistant, "ok", some "P"⟩ : Turn).toolCallArgs.isSome ∧
    _is_tool_call (⟨Role.assistant, "ok", some "P"⟩ : Turn) =
      isModeSwitch (⟨Role.assistant, "ok", some "P"⟩ : Turn) :=
  is_tool_call_payload_only ⟨Role.assistant, "ok", some "P"⟩ (fun _ => rfl)

/-- C1 counterexample: on a human Turn carrying a tool-call payload the
router follows `_is_tool_call` and returns `"prompt"` (Generating),
while the spec's three rules — with mode-switch per §4.2 — yield
`Gathering`. -/
theorem router_vs_spec_rules_cx :
    get_state [(⟨Role.human, "hello", some "PAYLOAD"⟩ : Turn)] = .ok "prompt" ∧
    specNextMode [(⟨Role.human, "hello", some "PAYLOAD"⟩ : Turn)] = some Mode.Gathering ∧
    nodeOfMode Mode.Gathering = "info" ∧ ("info" : String) ≠ "prompt" := by
  refine ⟨rfl, rfl, rfl, by decide⟩

/-- C1 amended: on every non-empty message list satisfying the
data-model invariant (a payload only on assistant Turns), the router
returns exactly the node of the mode computed by the spec's three
ordered rules. -/
theorem router_implements_spec_rules (messages : List Turn) (hne : messages ≠ [])
    (hinv : messages.all (fun t => !t.toolCallArgs.isSome || t.role == Role.assistant) = true) :
    ∃ m, specNextMode messages = some m ∧ get_state messages = .ok (nodeOfMode m) := by
  obtain ⟨last, hl⟩ := exists_getLast?_of_ne_nil messages hne
  have hmem : last ∈ messages := List.mem_of_mem_getLast? hl
  have hinv' : ∀ t ∈ messages, t.toolCallArgs.isSome = true → t.role = Role.assistant := by
    intro t ht hp
    have hb := List.all_eq_true.mp hinv t ht
    rw [hp] at hb
    simpa using hb
  have hsw : ∀ t ∈ messages, isModeSwitch t = _is_tool_call t :=
    fun t ht => isModeSwitch_eq_tool_call (hinv' t ht)
  have hany : (messages.any fun t => isModeSwitch t) = (messages.any fun m => _is_tool_call m) := by
    rw [Bool.eq_iff_iff, List.any_eq_true, List.any_eq_true]
    constructor
    · rintro ⟨t, ht, hx⟩; exact ⟨t, ht, by rw [← hsw t ht]; exact hx⟩
    · rintro ⟨t, ht, hx⟩; exact ⟨t, ht, by rw [hsw t ht]; exact hx⟩
  unfold get_state specNextMode
  rw [hl]
  by_cases h1 : _is_tool_call last = true
  · have h1' : isModeSwitch last = true := by rw [hsw last hmem]; exact h1
    exact ⟨Mode.Generating, by simp [h1', nodeOfMode], by simp [h1, nodeOfMode]⟩
  · have h1' : ¬isModeSwitch last = true := by rw [hsw last hmem]; exact h1
    by_cases h2 : last.role = Role.human
    · by_cases h3 : (messages.any fun m => _is_tool_call m) = true
      · have h3' : (messages.any fun t => isModeSwitch t) = true := by rw [hany]; exact h3
        exact ⟨Mode.Generating, by simp [h1', h2, h3', nodeOfMode], by simp [h1, h2, h3, nodeOfMode]⟩
      · have h3' : ¬(messages.any fun t => isModeSwitch t) = true := by rw [hany]; exact h3
        exact ⟨Mode.Gathering, by simp [h1', h2, h3', nodeOfMode], by simp [h1, h2, h3, nodeOfMode]⟩
    · exact ⟨Mode.AwaitingInput, by simp [h1', h2, nodeOfMode], by simp [h1, h2, nodeOfMode]⟩

/-- Witness for C1 (amended) at a concrete one-message thread. -/
theorem router_implements_spec_rules_witness :
    ∃ m, specNextMode [HumanTurn "hi!"] = some m ∧
      get_state [HumanTurn "hi!"] = .ok (nodeOfMode m) :=
  router_implements_spec_rules [HumanTurn "hi!"] (by decide) (by decide)

/-! ## Claims about the Generating handler's message builder -/

/-- C3 counterexample: with two payload-carrying Turns, the builder
substitutes the payload of the LAST one (each tool-call message
overwrites `tool_call`) and drops the second mode-switch Turn from the
history, so the result is neither built from the FIRST payload nor
followed by all Turns after the first mode-switch. -/
theorem generating_request_first_payload_cx :
    get_prompt_messages [⟨Role.assistant, "a", some "P1"⟩, ⟨Role.assistant, "b", some "P2"⟩]
      = [SystemTurn (formatReqs (some "P2"))] ∧
    get_prompt_messages [⟨Role.assistant, "a", some "P1"⟩, ⟨Role.assistant, "b", some "P2"⟩]
      ≠ SystemTurn (formatReqs (some "P1")) :: [⟨Role.assistant, "b", some "P2"⟩] := by
  exact ⟨rfl, by decide⟩

/-- C3 amended: for every message list containing at least one
payload-carrying Turn, the builder returns the fixed system instruction
with the payload of the LAST payload-carrying Turn substituted, followed
by exactly the Turns after the FIRST payload-carrying Turn that do not
themselves carry payloads. -/
theorem generating_request_characterization (messages : List Turn)
    (h : messages.any (fun m => _is_tool_call m) = true) :
    get_prompt_messages messages =
      SystemTurn (formatReqs (lastToolCallArgs messages)) :: tailAfterFirstSwitch messages := by
  unfold get_prompt_messages
  rw [gpmLoop_none_of_any messages h]

/-- Witness for C3 (amended): one mode-switch followed by a human Turn. -/
theorem generating_request_characterization_witness :
    get_prompt_messages [⟨Role.assistant, "ready", some "REQS"⟩, HumanTurn "looks good"] =
      SystemTurn (formatReqs (lastToolCallArgs
        [⟨Role.assistant, "ready", some "REQS"⟩, HumanTurn "looks good"])) ::
      tailAfterFirstSwitch [⟨Role.assistant, "ready", some "REQS"⟩, HumanTurn "looks good"] :=
  generating_request_characterization _ (by decide)

/-- C9 counterexample: a human Turn carrying a payload is not a
mode-switch per §4.2, yet the builder picks its payload up, so the
placeholder is not filled with `"None"`. -/
theorem generating_no_switch_cx :
    isModeSwitch (⟨Role.human, "z", some "R"⟩ : Turn) = false ∧
    get_prompt_messages [(⟨Role.human, "z", some "R"⟩ : Turn)]
      = [SystemTurn (formatReqs (some "R"))] ∧
    formatReqs (some "R") ≠ formatReqs none := by
  exact ⟨rfl, rfl, by decide⟩

/-- C9 amended: for every message list in which no Turn carries a
tool-call payload, the builder does not fail and returns exactly one
system instruction whose placeholder is filled with the text `"None"`,
followed by no history Turns at all. -/
theorem generating_handles_no_payload (messages : List Turn)
    (h : messages.all (fun m => !_is_tool_call m) = true) :
    get_prompt_messages messages = [SystemTurn (formatReqs none)] ∧
    formatReqs none =
      "Based on the following requirements, write a good prompt template:\n\nNone" := by
  refine ⟨?_, rfl⟩
  unfold get_prompt_messages
  rw [gpmLoop_none_of_all_plain messages h]

/-- Witness for C9 (amended): a payload-free conversation. -/
theorem generating_handles_no_payload_witness :
    get_prompt_messages [HumanTurn "hi!", ⟨Role.assistant, "what for?", none⟩]
      = [SystemTurn (formatReqs none)] ∧
    formatReqs none =
      "Based on the following requirements, write a good prompt template:\n\nNone" :=
  generating_handles_no_payload [HumanTurn "hi!", ⟨Role.assistant, "what for?", none⟩] (by decide)

/-- C10: the history the builder sends after its system instruction
never contains a payload-carrying Turn — every tool-call message,
including those after the first one, is filtered out. -/
theorem filtered_history_no_tool_calls (messages : List Turn) :
    ((get_prompt_messages messages).drop 1).all (fun m => !_is_tool_call m) = true := by
  show ((SystemTurn (formatReqs (gpmLoop messages none).1) :: (gpmLoop messages none).2).drop 1).all
      (fun m => !_is_tool_call m) = true
  rw [List.drop_one, List.tail_cons]
  exact gpmLoop_snd_all_plain messages none

/-! ## Claims about the graph wiring and the orchestrator -/

theorem runNode_info (ig pg : List Turn → Turn) (messages : List Turn) :
    runNode ig pg "info" messages = ig (get_messages_info messages) := by
  simp [runNode]

theorem runNode_prompt (ig pg : List Turn → Turn) (messages : List Turn) :
    runNode ig pg "prompt" messages = pg (get_prompt_messages messages) := by
  simp [runNode]

theorem runGraph_end (ig pg : List Turn → Turn) (fuel : Nat) (messages outs : List Turn)
    (trace : List String) :
    runGraph ig pg (fuel + 1) END messages outs trace = some (messages, outs, trace) := by
  simp [runGraph]

theorem runGraph_step (ig pg : List Turn → Turn) (fuel : Nat) (node : String)
    (messages outs : List Turn) (trace : List String) (h : node ≠ END) :
    runGraph ig pg (fuel + 1) node messages outs trace =
      match get_state (messages ++ [runNode ig pg node messages]) with
      | .error _ => none
      | .ok next =>
        runGraph ig pg fuel next (messages ++ [runNode ig pg node messages])
          (outs ++ [runNode ig pg node messages]) (trace ++ [node]) := by
  simp [runGraph, h]

/-- C5 (code bug): with a mode-switch already in the thread and a fresh
human input, the router — evaluated on the pre-handler state — says
`"prompt"` (Generating), but the graph's fixed entry point
`set_entry_point("info")` runs the Gathering node first without ever
consulting the router, and in this run the Generating node is never
invoked (trace `["info"]`). -/
theorem entry_point_skips_router :
    get_state ([HumanTurn "I need a prompt", ⟨Role.assistant, "ready", some "ARGS"⟩] ++
        [HumanTurn "looks good"]) = .ok "prompt" ∧
    submit (fun _ => ⟨Role.assistant, "what else?", none⟩)
        (fun _ => ⟨Role.assistant, "template", none⟩)
        [HumanTurn "I need a prompt", ⟨Role.assistant, "ready", some "ARGS"⟩] "looks good"
      = some ([HumanTurn "I need a prompt", ⟨Role.assistant, "ready", some "ARGS"⟩,
               HumanTurn "looks good", ⟨Role.assistant, "what else?", none⟩],
              [⟨Role.assistant, "what else?", none⟩], ["info"]) := by
  exact ⟨rfl, rfl⟩

/-- C6: under the generator interface contract (handlers produce
assistant Turns; the Generating call, bound to no schema, returns no
tool call), every `submit` call terminates with fuel 3 and follows
`expectedSubmit`: exactly one handler invocation (trace `["info"]`) when
the handler's output carries no tool call, exactly two chained
invocations (trace `["info", "prompt"]`, two output Turns) when the
first output is a tool call. -/
theorem submit_two_handler_bound (ig pg : List Turn → Turn) (history : List Turn) (text : String)
    (hir : ∀ ms, (ig ms).role = Role.assistant)
    (hpr : ∀ ms, (pg ms).role = Role.assistant)
    (hpt : ∀ ms, _is_tool_call (pg ms) = false) :
    submit ig pg history text = some (expectedSubmit ig pg history text) ∧
    ((expectedSubmit ig pg history text).2.2 = ["info"] ∨
     (expectedSubmit ig pg history text).2.2 = ["info", "prompt"]) := by
  have hmain : submit ig pg history text = some (expectedSubmit ig pg history text) := by
    unfold submit
    rw [show (3 : Nat) = 2 + 1 from rfl,
      runGraph_step ig pg 2 "info" (history ++ [HumanTurn text]) [] [] (by decide),
      runNode_info]
    by_cases h1 : _is_tool_call (ig (get_messages_info (history ++ [HumanTurn text]))) = true
    · have hget1 : get_state ((history ++ [HumanTurn text]) ++
          [ig (get_messages_info (history ++ [HumanTurn text]))]) = .ok "prompt" := by
        unfold get_state
        rw [List.getLast?_concat]
        simp [h1]
      rw [hget1]
      dsimp only
      rw [show (2 : Nat) = 1 + 1 from rfl,
        runGraph_step ig pg 1 "prompt" _ _ _ (by decide),
        runNode_prompt]
      have hget2 : get_state (((history ++ [HumanTurn text]) ++
            [ig (get_messages_info (history ++ [HumanTurn text]))]) ++
          [pg (get_prompt_messages ((history ++ [HumanTurn text]) ++
            [ig (get_messages_info (history ++ [HumanTurn text]))]))]) = .ok END := by
        unfold get_state
        rw [List.getLast?_concat]
        simp [hpt, hpr]
      rw [hget2]
      dsimp only
      rw [show (1 : Nat) = 0 + 1 from rfl, runGraph_end]
      unfold expectedSubmit
      simp [h1, List.append_assoc]
    · have hget1 : get_state ((history ++ [HumanTurn text]) ++
          [ig (get_messages_info (history ++ [HumanTurn text]))]) = .ok END := by
        unfold get_state
        rw [List.getLast?_concat]
        simp [h1, hir]
      rw [hget1]
      dsimp only
      rw [show (2 : Nat) = 1 + 1 from rfl, runGraph_end]
      unfold expectedSubmit
      simp [h1]
  refine ⟨hmain, ?_⟩
  unfold expectedSubmit
  by_cases h1 : _is_tool_call (ig (get_messages_info (history ++ [HumanTurn text]))) = true
  · right; simp [h1]
  · left; simp [h1]

/-- Witness for C6 at concrete oracles and an empty history. -/
theorem submit_two_handler_bound_witness :
    submit c6InfoOracle c6PromptOracle [] "hi!" =
      some (expectedSubmit c6InfoOracle c6PromptOracle [] "hi!") ∧
    ((expectedSubmit c6InfoOracle c6PromptOracle [] "hi!").2.2 = ["info"] ∨
     (expectedSubmit c6InfoOracle c6PromptOracle [] "hi!").2.2 = ["info", "prompt"]) :=
  submit_two_handler_bound c6InfoOracle c6PromptOracle [] "hi!"
    (fun _ => rfl) (fun _ => rfl) (fun _ => rfl)

/-- C7 counterexample (spec-modelled orchestrator): when the Gathering
cycle succeeds with a mode-switch Turn and the chained Generating call
then fails, the persisted thread has already advanced past the pre-call
state `S = []` — the claim that the store afterwards equals exactly `S`
on any generator failure is false. -/
theorem submit_chained_failure_cx :
    submitSpec (fun _ => .ok ⟨Role.assistant, "ready", some "P"⟩)
        (fun _ => .error GenError.GenerationFailed) [] "hi!"
      = some ([HumanTurn "hi!", ⟨Role.assistant, "ready", some "P"⟩],
              .error GenError.GenerationFailed) ∧
    ([HumanTurn "hi!", ⟨Role.assistant, "ready", some "P"⟩] : List Turn) ≠ [] := by
  exact ⟨rfl, by decide⟩

/-- C7 amended (spec-modelled orchestrator): `submit` is atomic per
cycle — whenever the generator fails in the FIRST handler invocation of
the call, `submit` returns `GenerationFailed` and the persisted thread
is exactly the pre-call state `S`: not even the human Turn is saved. -/
theorem submit_first_cycle_atomic (ig pg : List Turn → Except GenError Turn)
    (S : List Turn) (text : String)
    (hig : ig (S ++ [HumanTurn text]) = .error GenError.GenerationFailed)
    (hpg : pg (S ++ [HumanTurn text]) = .error GenError.GenerationFailed) :
    submitSpec ig pg S text = some (S, .error GenError.GenerationFailed) := by
  have hroute : specNextMode (S ++ [HumanTurn text]) = some Mode.Gathering ∨
      specNextMode (S ++ [HumanTurn text]) = some Mode.Generating := by
    unfold specNextMode
    rw [List.getLast?_concat]
    dsimp only
    split_ifs with hsw hrole hany
    · exact (by simp [isModeSwitch, HumanTurn] at hsw)
    · exact absurd rfl hrole
    · exact Or.inr rfl
    · exact Or.inl rfl
  unfold submitSpec
  rw [show (3 : Nat) = 2 + 1 from rfl]
  rcases hroute with h | h
  · rw [submitSpecLoop, h]
    dsimp only
    rw [hig]
  · rw [submitSpecLoop, h]
    dsimp only
    rw [hpg]

/-- Witness for C7 (amended): both generators fail immediately. -/
theorem submit_first_cycle_atomic_witness :
    submitSpec (fun _ => .error GenError.GenerationFailed)
        (fun _ => .error GenError.GenerationFailed) [HumanTurn "earlier"] "again"
      = some ([HumanTurn "earlier"], .error GenError.GenerationFailed) :=
  submit_first_cycle_atomic _ _ [HumanTurn "earlier"] "again" rfl rfl

end PromptGen
